import Mathlib

/-!
Verification development for the multi-model stock forecasting core
(`predictions.ts`): statistical helpers, the four forecasting strategies
(`predictLinearRegression`, `predictARIMA`, `predictRandomForest`,
`predictLSTM`), the metric calculators, the backtest selector
(`calculateAllModelMetrics`), the entry point (`generatePredictions`) and
the chart-merge helper (`combineDataWithPredictions`).

Modelling conventions:
* JavaScript numbers are modelled as rationals (`ℚ`); division by zero is
  the total `ℚ` division (returning 0).
* `Math.random()` draws are explicit parameters (`rand : ℚ`, one value per
  call, or a stream `ℕ → ℚ` indexed by the loop counter), matching the
  design note in the spec that the random source be injectable.
* `Math.sqrt` and `Math.tanh` are explicit function parameters
  (`sq tanh : ℚ → ℚ`); every theorem below holds for an arbitrary
  interpretation of them, and concrete instances use `ratSqrt`, which
  agrees with the real square root on perfect squares.
* `predictLSTM` returns `Option ℚ`: `some q` is the finite number `q`, and
  `none` marks a non-finite JavaScript number (`NaN` or `±Infinity`).  The
  only source of non-finiteness modelled is the `-Infinity` initialisation
  of `bestSimilarity`: when the pattern-matching scan runs zero iterations,
  `patternChange * (-Infinity)` is `±Infinity` or `NaN`, and every
  subsequent `+`, `*` against finite values keeps the result non-finite,
  so collapsing all non-finite values into `none` is sound there.
* Dates are epoch-day numbers (`ℤ`); day 0 (1970-01-01) was a Thursday, so
  JavaScript's `getDay()` is `(d + 4) % 7` with `0 = Sunday`.
-/

/-- One OHLCV point of the externally supplied history
(`HistoricalDataPoint` in the source; `open` is a Lean keyword, hence
`openPrice`). -/
structure HistoricalDataPoint where
  date : ℤ
  close : ℚ
  openPrice : ℚ
  high : ℚ
  low : ℚ
  volume : ℚ
  deriving DecidableEq, Repr

instance : Inhabited HistoricalDataPoint := ⟨⟨0, 0, 0, 0, 0, 0⟩⟩

/-- `mean` from the source: 0 on empty input, else the arithmetic mean. -/
def mean (data : List ℚ) : ℚ :=
  if data.length = 0 then 0 else data.foldl (· + ·) 0 / (data.length : ℚ)

/-- `variance` from the source: population variance, 0 for fewer than 2
points. -/
def variance (data : List ℚ) : ℚ :=
  if data.length < 2 then 0 else
  let m := mean data
  data.foldl (fun sum val => sum + (val - m) ^ 2) 0 / (data.length : ℚ)

/-- `stdDev` from the source, with `Math.sqrt` as the explicit oracle
`sq`. -/
def stdDevO (sq : ℚ → ℚ) (data : List ℚ) : ℚ := sq (variance data)

/-- JavaScript `xs.slice(-k)`: the last `k` elements (all of them when the
list is shorter). -/
def lastN (k : ℕ) (xs : List ℚ) : List ℚ := xs.drop (xs.length - k)

/-- `Math.max(...xs)` for the non-empty lists it is applied to. -/
def maxList : List ℚ → ℚ
  | [] => 0
  | h :: t => t.foldl max h

/-- `Math.min(...xs)` for the non-empty lists it is applied to. -/
def minList : List ℚ → ℚ
  | [] => 0
  | h :: t => t.foldl min h

/-- `data[data.length - 1]?.close || 0`: the close of the last data point,
0 for an empty history (a last close of exactly 0 is also mapped to 0 by
`|| 0`, which coincides). -/
def lastCloseOrZero (data : List HistoricalDataPoint) : ℚ :=
  ((data.getLast?).map (·.close)).getD 0

/-- An exact-on-perfect-squares rational square root, used to instantiate
the `sq` oracle at concrete inputs (where only perfect squares reach it). -/
def ratSqrt (q : ℚ) : ℚ := (Int.sqrt q.num : ℚ) / (Nat.sqrt q.den : ℚ)

/-- `predictLinearRegression`: ordinary-least-squares trend extrapolation
with a volatility-scaled stochastic perturbation (`rand` is the single
`Math.random()` draw), floor-clamped at 0.7 × last close.  The four sums
of the source's index loop are accumulated in one 4-tuple fold. -/
def predictLinearRegression (sq : ℚ → ℚ) (rand : ℚ)
    (data : List HistoricalDataPoint) (daysAhead : ℕ) : ℚ :=
  if data.length < 5 then lastCloseOrZero data else
  let closes := data.map (·.close)
  let n := closes.length
  let sums := (List.range n).foldl
    (fun (s : ℚ × ℚ × ℚ × ℚ) (i : ℕ) =>
      (s.1 + (i : ℚ), s.2.1 + closes.getD i 0,
       s.2.2.1 + (i : ℚ) * closes.getD i 0, s.2.2.2 + (i : ℚ) * (i : ℚ)))
    (0, 0, 0, 0)
  let sumX := sums.1
  let sumY := sums.2.1
  let sumXY := sums.2.2.1
  let sumX2 := sums.2.2.2
  let m := ((n : ℚ) * sumXY - sumX * sumY) / ((n : ℚ) * sumX2 - sumX * sumX)
  let b := (sumY - m * sumX) / (n : ℚ)
  let prediction := m * ((n : ℚ) + (daysAhead : ℚ) - 1) + b
  let volatility := stdDevO sq (lastN 20 closes) / mean (lastN 20 closes)
  let noise := (rand - 1 / 2) * volatility * closes.getD (n - 1) 0 * (1 / 10)
  max (prediction + noise) (closes.getD (n - 1) 0 * (7 / 10))

/-- `predictARIMA`: differencing plus decaying AR/MA components and a
volatility-scaled stochastic adjustment, floor-clamped at 0.75 × last
close. -/
def predictARIMA (sq : ℚ → ℚ) (rand : ℚ)
    (data : List HistoricalDataPoint) (daysAhead : ℕ) : ℚ :=
  if data.length < 10 then lastCloseOrZero data else
  let closes := data.map (·.close)
  let n := closes.length
  let diffs := List.zipWith (fun a b => a - b) (closes.drop 1) closes
  let ar1 := diffs.getD (diffs.length - 1) 0
  let ar2 := diffs.getD (diffs.length - 2) 0
  let arComponent := (3 / 5) * ar1 + (3 / 10) * ar2
  let recentCloses := lastN 10 closes
  let sma := mean recentCloses
  let errors := recentCloses.map (fun c => c - sma)
  let maComponent := (2 / 5) * mean (lastN 2 errors)
  let prediction := (List.range daysAhead).foldl
    (fun p i => p + arComponent * ((9 : ℚ) / 10) ^ i + maComponent * ((17 : ℚ) / 20) ^ i)
    (closes.getD (n - 1) 0)
  let volatility := stdDevO sq (lastN 20 closes)
  let adjustment := (rand - 1 / 2) * volatility * (3 / 20)
  max (prediction + adjustment) (closes.getD (n - 1) 0 * (3 / 4))

/-- `predictRandomForest`: the source's loop over `tree = 0..4` assigns
each `treePred` in exactly one `if (tree === k)` block; the five pushed
values are written out directly and averaged ("voting").  No floor clamp
is applied. -/
def predictRandomForest (sq : ℚ → ℚ)
    (data : List HistoricalDataPoint) (daysAhead : ℕ) : ℚ :=
  if data.length < 15 then lastCloseOrZero data else
  let closes := data.map (·.close)
  let volumes := data.map (·.volume)
  let n := closes.length
  let tree1 :=
    let momentum5 := (closes.getD (n - 1) 0 - closes.getD (n - 6) 0) / closes.getD (n - 6) 0
    let momentum10 := (closes.getD (n - 1) 0 - closes.getD (n - 11) 0) / closes.getD (n - 11) 0
    closes.getD (n - 1) 0 * (1 + (momentum5 * (7 / 10) + momentum10 * (3 / 10)) * (daysAhead : ℚ) * (1 / 10))
  let tree2 :=
    let sma20 := mean (lastN 20 closes)
    let deviation := (closes.getD (n - 1) 0 - sma20) / sma20
    closes.getD (n - 1) 0 - deviation * closes.getD (n - 1) 0 * (1 / 5) * (daysAhead : ℚ)
  let tree3 :=
    let avgVol := mean (lastN 20 volumes)
    let recentVol := mean (lastN 5 volumes)
    let volSignal : ℚ := if avgVol < recentVol then 51 / 50 else 49 / 50
    let trend := (closes.getD (n - 1) 0 - closes.getD (n - 5) 0) / 5
    closes.getD (n - 1) 0 + trend * (daysAhead : ℚ) * volSignal
  let tree4 :=
    let high20 := maxList (lastN 20 closes)
    let low20 := minList (lastN 20 closes)
    let mid := (high20 + low20) / 2
    mid + (closes.getD (n - 1) 0 - mid) * ((23 : ℚ) / 25) ^ daysAhead
  let tree5 :=
    let volatility := stdDevO sq (lastN 10 closes)
    let trend : ℚ := if closes.getD (n - 5) 0 < closes.getD (n - 1) 0 then 1 else -1
    closes.getD (n - 1) 0 + trend * volatility * sq (daysAhead : ℚ) * (3 / 10)
  mean [tree1, tree2, tree3, tree4, tree5]

/-- `predictLSTM`: gated-memory fold, pattern-matching scan, technical
indicators, weighted blend and horizon decay.  `bestSimilarity` starts at
`-Infinity`, modelled by `none` in the scan accumulator: any finite
similarity exceeds it, which is the exact `similarity > bestSimilarity`
behaviour.  When the scan list is empty the sentinel reaches
`patternPrediction`, making the result non-finite (`none`); otherwise the
finite value is computed exactly. -/
def predictLSTM (tanh sq : ℚ → ℚ)
    (data : List HistoricalDataPoint) (daysAhead : ℕ) : Option ℚ :=
  if data.length < 15 then some (lastCloseOrZero data) else
  let closes := data.map (·.close)
  let volumes := data.map (·.volume)
  let n := closes.length
  let ch := (closes.drop 1).foldl
    (fun (ch : ℚ × ℚ) c =>
      let cell := (9 / 10) * ch.1 + (3 / 10) * c
      (cell, tanh (cell / c) * cell))
    (closes.headD 0, closes.headD 0)
  let cellState := ch.1
  let hiddenState := ch.2
  let recentPattern := lastN 5 closes
  let patternNorm := mean recentPattern
  let normalizedRecent := recentPattern.map (· / patternNorm)
  -- the scan `for (i = 5; i < closes.length - 5 - 5; i++)` visits
  -- `n - 15` indices starting at 5 (none when `n = 15`)
  let best := (List.range' 5 (n - 15)).foldl
    (fun (best : ℕ × Option ℚ) i =>
      let candidate := (closes.drop i).take 5
      let candidateNorm := mean candidate
      let normalizedCandidate := candidate.map (· / candidateNorm)
      let sums := (List.range 5).foldl
        (fun (s : ℚ × ℚ × ℚ) j =>
          (s.1 + normalizedRecent.getD j 0 * normalizedCandidate.getD j 0,
           s.2.1 + normalizedRecent.getD j 0 ^ 2,
           s.2.2 + normalizedCandidate.getD j 0 ^ 2))
        (0, 0, 0)
      let similarity := sums.1 / (sq sums.2.1 * sq sums.2.2 + 1 / 100000000)
      if (match best.2 with
          | none => true
          | some b => decide (b < similarity)) then
        (i, some similarity)
      else best)
    (0, none)
  let bestMatch := best.1
  let futureIdx := min (bestMatch + 5 + daysAhead - 1) (n - 1)
  let patternChange :=
    (closes.getD futureIdx 0 - closes.getD (bestMatch + 5 - 1) 0) /
      closes.getD (bestMatch + 5 - 1) 0
  let shortMomentum := (closes.getD (n - 1) 0 - closes.getD (n - 5) 0) / closes.getD (n - 5) 0
  let longMomentum := (closes.getD (n - 1) 0 - closes.getD (n - 10) 0) / closes.getD (n - 10) 0
  let recentVolume := mean (lastN 5 volumes)
  let avgVolume := mean (lastN 20 volumes)
  let volumeSignal : ℚ := if avgVolume < recentVolume then 11 / 10 else 9 / 10
  let changes := (List.range' (n - 14) 14).map
    (fun i => closes.getD i 0 - closes.getD (i - 1) 0)
  let gains := changes.filter (fun c => decide (0 < c))
  let losses := (changes.filter (fun c => ! decide (0 < c))).map (fun c => |c|)
  let avgGain := if gains.length ≠ 0 then mean gains else 0
  let avgLoss := if losses.length ≠ 0 then mean losses else 1 / 1000
  let rsi := 100 - 100 / (1 + avgGain / avgLoss)
  let rsiSignal : ℚ := if 70 < rsi then -(1 / 100) else if rsi < 30 then 1 / 100 else 0
  let sma20 := mean (lastN 20 closes)
  let std20 := stdDevO sq (lastN 20 closes)
  let upperBand := sma20 + 2 * std20
  let lowerBand := sma20 - 2 * std20
  let lastClose := closes.getD (n - 1) 0
  let bbPosition := (lastClose - lowerBand) / (upperBand - lowerBand + 1 / 100000000)
  let bbSignal : ℚ := if 9 / 10 < bbPosition then -(1 / 200) else if bbPosition < 1 / 10 then 1 / 200 else 0
  let hiddenPrediction := hiddenState / cellState * lastClose
  let momentumPrediction :=
    lastClose * (1 + (shortMomentum * (3 / 5) + longMomentum * (2 / 5)) * volumeSignal * (3 / 10) * (daysAhead : ℚ))
  let technicalPrediction := lastClose * (1 + rsiSignal + bbSignal)
  let decayFactor := 1 - ((daysAhead : ℚ) - 1) * (1 / 100)
  match best.2 with
  | none => none
  | some bestSimilarity =>
    let patternPrediction := lastClose * (1 + patternChange * bestSimilarity * (1 / 2))
    let finalPrediction :=
      hiddenPrediction * (1 / 4) + patternPrediction * (1 / 5) +
        momentumPrediction * (1 / 4) + technicalPrediction * (3 / 10)
    some (finalPrediction * decayFactor + lastClose * (1 - decayFactor))

/-- JavaScript `a > b` on possibly-out-of-range array reads: any
comparison against `undefined` is false. -/
def jsGtO (a b : Option ℚ) : Bool :=
  match a, b with
  | some x, some y => decide (y < x)
  | _, _ => false

/-- `calculateMSE`: scale-normalized mean squared error; 0 on length
mismatch or empty input. -/
def calculateMSE (actual predicted : List ℚ) : ℚ :=
  if actual.length ≠ predicted.length ∨ actual.length = 0 then 0 else
  let maxPrice := maxList actual
  (actual.zip predicted).foldl
    (fun sum p => sum + ((p.1 - p.2) / maxPrice) ^ 2) 0 / (actual.length : ℚ)

/-- `calculateR2`: 1 − SS_res/SS_tot on raw values, 0 when SS_tot is not
positive; 0 on length mismatch or empty input. -/
def calculateR2 (actual predicted : List ℚ) : ℚ :=
  if actual.length ≠ predicted.length ∨ actual.length = 0 then 0 else
  let m := mean actual
  let ssTot := actual.foldl (fun sum a => sum + (a - m) ^ 2) 0
  let ssRes := (actual.zip predicted).foldl (fun sum p => sum + (p.1 - p.2) ^ 2) 0
  if 0 < ssTot then 1 - ssRes / ssTot else 0

/-- `calculateMAE`: scale-normalized mean absolute error; 0 on length
mismatch or empty input. -/
def calculateMAE (actual predicted : List ℚ) : ℚ :=
  if actual.length ≠ predicted.length ∨ actual.length = 0 then 0 else
  let maxPrice := maxList actual
  (actual.zip predicted).foldl
    (fun sum p => sum + |(p.1 - p.2) / maxPrice|) 0 / (actual.length : ℚ)

/-- `calculateAccuracy`: percentage of adjacent steps whose direction
matches.  The source has no length-mismatch guard: `predicted[i]` may be
`undefined`, in which case the `>` comparison is false (see `jsGtO`). -/
def calculateAccuracy (actual predicted : List ℚ) : ℚ :=
  if actual.length = 0 then 0 else
  let correctDirection := ((List.range' 1 (actual.length - 1)).filter
    (fun i =>
      let actualDirection : ℤ := if jsGtO (actual.get? i) (actual.get? (i - 1)) then 1 else -1
      let predDirection : ℤ := if jsGtO (predicted.get? i) (predicted.get? (i - 1)) then 1 else -1
      decide (actualDirection = predDirection))).length
  if 1 < actual.length then ((correctDirection : ℚ) / ((actual.length : ℚ) - 1)) * 100 else 0

/-- Per-model metric record (`ModelMetrics` in the source). -/
structure ModelMetrics where
  mse : ℚ
  r2 : ℚ
  mae : ℚ
  accuracy : ℚ
  deriving DecidableEq, Repr

/-- The all-zero `ModelMetrics` returned on thin data. -/
def zeroMetrics : ModelMetrics := ⟨0, 0, 0, 0⟩

/-- Metrics for all four strategies plus the elected best model
(`AllModelMetrics` in the source). -/
structure AllModelMetrics where
  linearRegression : ModelMetrics
  arima : ModelMetrics
  randomForest : ModelMetrics
  lstm : ModelMetrics
  bestModel : String
  deriving DecidableEq, Repr

/-- `models.reduce((a, b) => a.r2 > b.r2 ? a : b).name` over the four
name/R² pairs in declaration order: the accumulator is kept only when its
R² is strictly greater, so a tie is won by the later entry. -/
def bestOf4 (r1 r2 r3 r4 : ℚ) : String :=
  (([("arima", r2), ("randomForest", r3), ("lstm", r4)] : List (String × ℚ)).foldl
    (fun a b => if b.2 < a.2 then a else b) ("linearRegression", r1)).1

/-- The main branch of `calculateAllModelMetrics` (its body for histories
of at least 20 points): the 80/20 backtest.  `splitIdx` is
`Math.floor(n * 0.8)`, which equals `4n/5` in `ℕ` division.  Each strategy
forecasts every validation index from the same fixed training prefix with
`daysAhead = i + 1`.  For `n ≥ 20` the prefix has `≥ 16` points, so
`predictLSTM` always returns `some`; the `getD 0` default is never used. -/
def backtestCore (tanh sq : ℚ → ℚ) (randLR randAR : ℕ → ℚ)
    (historicalData : List HistoricalDataPoint) : AllModelMetrics :=
    let splitIdx := 4 * historicalData.length / 5
    let trainData := historicalData.take splitIdx
    let valData := historicalData.drop splitIdx
    let valActual := valData.map (·.close)
    let lrPredicted := (List.range valData.length).map
      (fun i => predictLinearRegression sq (randLR i) trainData (i + 1))
    let arimaPredicted := (List.range valData.length).map
      (fun i => predictARIMA sq (randAR i) trainData (i + 1))
    let rfPredicted := (List.range valData.length).map
      (fun i => predictRandomForest sq trainData (i + 1))
    let lstmPredicted := (List.range valData.length).map
      (fun i => (predictLSTM tanh sq trainData (i + 1)).getD 0)
    let lrMetrics : ModelMetrics :=
      ⟨calculateMSE valActual lrPredicted, calculateR2 valActual lrPredicted,
       calculateMAE valActual lrPredicted, calculateAccuracy valActual lrPredicted⟩
    let arimaMetrics : ModelMetrics :=
      ⟨calculateMSE valActual arimaPredicted, calculateR2 valActual arimaPredicted,
       calculateMAE valActual arimaPredicted, calculateAccuracy valActual arimaPredicted⟩
    let rfMetrics : ModelMetrics :=
      ⟨calculateMSE valActual rfPredicted, calculateR2 valActual rfPredicted,
       calculateMAE valActual rfPredicted, calculateAccuracy valActual rfPredicted⟩
    let lstmMetrics : ModelMetrics :=
      ⟨calculateMSE valActual lstmPredicted, calculateR2 valActual lstmPredicted,
       calculateMAE valActual lstmPredicted, calculateAccuracy valActual lstmPredicted⟩
    { linearRegression := lrMetrics, arima := arimaMetrics,
      randomForest := rfMetrics, lstm := lstmMetrics,
      bestModel := bestOf4 lrMetrics.r2 arimaMetrics.r2 rfMetrics.r2 lstmMetrics.r2 }

/-- `calculateAllModelMetrics`: all-zero metrics with the `"lstm"`
fallback label for fewer than 20 points, else the 80/20 backtest of
`backtestCore`. -/
def calculateAllModelMetrics (tanh sq : ℚ → ℚ) (randLR randAR : ℕ → ℚ)
    (historicalData : List HistoricalDataPoint) : AllModelMetrics :=
  if historicalData.length < 20 then
    { linearRegression := zeroMetrics, arima := zeroMetrics,
      randomForest := zeroMetrics, lstm := zeroMetrics, bestModel := "lstm" }
  else
    backtestCore tanh sq randLR randAR historicalData

/-- JavaScript `getDay()` on an epoch-day number: day 0 (1970-01-01) was a
Thursday, so the weekday (0 = Sunday) is `(d + 4) % 7`. -/
def dayOfWeek (d : ℤ) : ℤ := (d + 4) % 7

/-- `getDay() === 0 || getDay() === 6`. -/
def isWeekend (d : ℤ) : Bool := dayOfWeek d == 0 || dayOfWeek d == 6

/-- The source's `while (nextDate.getDay() === 0 || nextDate.getDay() ===
6) nextDate.setDate(nextDate.getDate() + 1)` loop, unrolled: Saturday and
Sunday are the only consecutive weekend days, so the loop body runs at
most twice. -/
def adjustWeekend (d : ℤ) : ℤ :=
  if isWeekend d then (if isWeekend (d + 1) then d + 2 else d + 1) else d

/-- One dated prediction (`PredictionResult` in the source).
`predictedClose` is `none` when the underlying JavaScript number is
non-finite. -/
structure PredictionResult where
  date : ℤ
  predictedClose : Option ℚ
  confidence : ℚ
  isPrediction : Bool
  model : String
  deriving DecidableEq, Repr

instance : Inhabited PredictionResult := ⟨⟨0, none, 0, false, ""⟩⟩

/-- The base-confidence ternary chain of `generatePredictions`. -/
def baseConfidence (modelName : String) : ℚ :=
  if modelName = "lstm" then 23 / 25
  else if modelName = "randomForest" then 22 / 25
  else if modelName = "arima" then 17 / 20
  else 41 / 50

/-- `Math.round(x * 100) / 100`; `Math.round` is floor of `x + 0.5`. -/
def round2 (x : ℚ) : ℚ := ((⌊x * 100 + 1 / 2⌋ : ℤ) : ℚ) / 100

/-- `generatePredictions`, the `Forecaster` entry point: empty for fewer
than 15 points, else one dated, confidence-scored prediction per
day-offset `i = 1..daysToPredict`.  The string-keyed dispatch falls back
to `predictLSTM` for `"lstm"` and for any unrecognized name.  `rands i`
is the `Math.random()` draw consumed inside the strategy at step `i`. -/
def generatePredictions (tanh sq : ℚ → ℚ) (rands : ℕ → ℚ)
    (historicalData : List HistoricalDataPoint) (daysToPredict : ℕ)
    (modelName : String) : List PredictionResult :=
  if historicalData.length < 15 then [] else
  let lastDate := ((historicalData.getLast?).map (·.date)).getD 0
  (List.range' 1 daysToPredict).map (fun (i : ℕ) =>
    let nextDate := adjustWeekend (lastDate + (i : ℤ))
    let predicted : Option ℚ :=
      if modelName = "linearRegression" then
        some (predictLinearRegression sq (rands i) historicalData i)
      else if modelName = "arima" then
        some (predictARIMA sq (rands i) historicalData i)
      else if modelName = "randomForest" then
        some (predictRandomForest sq historicalData i)
      else predictLSTM tanh sq historicalData i
    let confidence := max (11 / 20) (baseConfidence modelName - (1 / 20) * (i : ℚ))
    { date := nextDate
      predictedClose := predicted.map round2
      confidence := confidence
      isPrediction := true
      model := modelName })

/-- One record of the merged chart sequence.  `close`/`actual` are
`number | null`; `predicted`/`predictedClose` are `null` or a (possibly
non-finite) number, hence `Option (Option ℚ)`. -/
structure CombinedPoint where
  date : ℤ
  close : Option ℚ
  actual : Option ℚ
  predicted : Option (Option ℚ)
  predictedClose : Option (Option ℚ)
  isPrediction : Bool
  deriving DecidableEq, Repr

/-- `combineDataWithPredictions`: historical rows (actual set, predicted
null) followed by the pushed prediction rows (predicted set, actual
null). -/
def combineDataWithPredictions (historicalData : List HistoricalDataPoint)
    (predictions : List PredictionResult) : List CombinedPoint :=
  historicalData.map (fun d =>
    { date := d.date, close := some d.close, actual := some d.close,
      predicted := none, predictedClose := none, isPrediction := false })
  ++ predictions.map (fun pred =>
    { date := pred.date, close := none, actual := none,
      predicted := some pred.predictedClose,
      predictedClose := some pred.predictedClose, isPrediction := true })

instance : Inhabited CombinedPoint := ⟨⟨0, none, none, none, none, false⟩⟩

/-- A 15-point strictly rising history (closes 100..114, dates 0..14;
day 14 relative to the 1970-01-01 epoch is a Thursday). -/
def dataRise15 : List HistoricalDataPoint :=
  [⟨0, 100, 0, 0, 0, 1⟩,
   ⟨1, 101, 0, 0, 0, 1⟩,
   ⟨2, 102, 0, 0, 0, 1⟩,
   ⟨3, 103, 0, 0, 0, 1⟩,
   ⟨4, 104, 0, 0, 0, 1⟩,
   ⟨5, 105, 0, 0, 0, 1⟩,
   ⟨6, 106, 0, 0, 0, 1⟩,
   ⟨7, 107, 0, 0, 0, 1⟩,
   ⟨8, 108, 0, 0, 0, 1⟩,
   ⟨9, 109, 0, 0, 0, 1⟩,
   ⟨10, 110, 0, 0, 0, 1⟩,
   ⟨11, 111, 0, 0, 0, 1⟩,
   ⟨12, 112, 0, 0, 0, 1⟩,
   ⟨13, 113, 0, 0, 0, 1⟩,
   ⟨14, 114, 0, 0, 0, 1⟩]

/-- A 3-point history, below every strategy minimum. -/
def dataShort3 : List HistoricalDataPoint :=
  [⟨0, 10, 0, 0, 0, 1⟩, ⟨1, 11, 0, 0, 0, 1⟩, ⟨2, 12, 0, 0, 0, 1⟩]

/-- A 20-point history with 9 closes of 1 followed by 11 closes of 1000:
the last close sits far above the 20-day average, so the mean-reversion
tree pulls the ensemble average far below the last close. -/
def dataCliff20 : List HistoricalDataPoint :=
  List.replicate 9 ⟨0, 1, 0, 0, 0, 1⟩ ++ List.replicate 11 ⟨0, 1000, 0, 0, 0, 1⟩

/-- A 20-point constant history: the validation slice is constant, so all
four strategies score R² = 0 — a four-way tie. -/
def dataFlat20 : List HistoricalDataPoint := List.replicate 20 ⟨0, 100, 0, 0, 0, 1⟩


/-! Helper lemmas shared by the claim theorems below. -/

lemma dataRise15_length : dataRise15.length = 15 := by
  rw [dataRise15]; rfl

lemma dataShort3_length : dataShort3.length = 3 := by
  rw [dataShort3]; rfl

lemma dataCliff20_length : dataCliff20.length = 20 := by
  rw [dataCliff20, List.length_append, List.length_replicate, List.length_replicate]

lemma dataFlat20_length : dataFlat20.length = 20 := by
  rw [dataFlat20, List.length_replicate]

lemma map_close_getD_last (data : List HistoricalDataPoint) :
    (data.map (·.close)).getD ((data.map (·.close)).length - 1) 0 = lastCloseOrZero data := by
  simp [lastCloseOrZero, List.getLast?_eq_getElem?, List.getD_eq_getElem?_getD]

lemma adjustWeekend_not_weekend (d : ℤ) : isWeekend (adjustWeekend d) = false := by
  simp only [adjustWeekend, isWeekend, dayOfWeek]
  split_ifs with h1 h2 <;>
    simp only [Bool.or_eq_true, beq_iff_eq, Bool.or_eq_false_iff, beq_eq_false_iff_ne, ne_eq] at * <;>
    omega

lemma predictLSTM_none_of_length15 (tanh sq : ℚ → ℚ)
    (data : List HistoricalDataPoint) (d : ℕ) (h : data.length = 15) :
    predictLSTM tanh sq data d = none := by
  simp [predictLSTM, h]

lemma foldl_zip_self (g : ℚ × ℚ → ℚ) (hg : ∀ a, g (a, a) = 0) :
    ∀ (xs : List ℚ) (c : ℚ), (xs.zip xs).foldl (fun sum p => sum + g p) c = c := by
  intro xs
  induction xs with
  | nil => intro c; rfl
  | cons a t ih =>
    intro c
    simp only [List.zip_cons_cons, List.foldl_cons]
    rw [hg, add_zero]
    exact ih c

lemma foldl_add_sq_le (m : ℚ) :
    ∀ (xs : List ℚ) (c : ℚ), c ≤ xs.foldl (fun sum a => sum + (a - m) ^ 2) c := by
  intro xs
  induction xs with
  | nil => intro c; exact le_rfl
  | cons a t ih =>
    intro c
    simp only [List.foldl_cons]
    calc c ≤ c + (a - m) ^ 2 := by nlinarith [sq_nonneg (a - m)]
    _ ≤ _ := ih _

lemma foldl_add_sq_pos (m x : ℚ) (hx : x ≠ m) :
    ∀ (xs : List ℚ) (c : ℚ), x ∈ xs → 0 ≤ c →
      0 < xs.foldl (fun sum a => sum + (a - m) ^ 2) c := by
  intro xs
  induction xs with
  | nil => intro c hmem; exact absurd hmem (List.not_mem_nil x)
  | cons a t ih =>
    intro c hmem hc
    simp only [List.foldl_cons]
    rcases List.mem_cons.1 hmem with rfl | hmem2
    · have hne : x - m ≠ 0 := sub_ne_zero.2 hx
      have hpos : 0 < (x - m) ^ 2 := by positivity
      exact lt_of_lt_of_le (by linarith) (foldl_add_sq_le m t (c + (x - m) ^ 2))
    · exact ih (c + (a - m) ^ 2) hmem2 (by nlinarith [sq_nonneg (a - m)])

lemma ssTot_pos (xs : List ℚ) (h : ∃ a ∈ xs, ∃ b ∈ xs, a ≠ b) :
    0 < xs.foldl (fun sum a => sum + (a - mean xs) ^ 2) 0 := by
  obtain ⟨a, ha, b, hb, hab⟩ := h
  by_cases hm : a = mean xs
  · exact foldl_add_sq_pos _ b (fun hbm => hab (by rw [hm, hbm])) xs 0 hb le_rfl
  · exact foldl_add_sq_pos _ a hm xs 0 ha le_rfl

lemma bestOf4_spec (r1 r2 r3 r4 : ℚ) :
    (bestOf4 r1 r2 r3 r4 = "linearRegression" ∧ r2 < r1 ∧ r3 < r1 ∧ r4 < r1) ∨
    (bestOf4 r1 r2 r3 r4 = "arima" ∧ r1 ≤ r2 ∧ r3 < r2 ∧ r4 < r2) ∨
    (bestOf4 r1 r2 r3 r4 = "randomForest" ∧ r1 ≤ r3 ∧ r2 ≤ r3 ∧ r4 < r3) ∨
    (bestOf4 r1 r2 r3 r4 = "lstm" ∧ r1 ≤ r4 ∧ r2 ≤ r4 ∧ r3 ≤ r4) := by
  unfold bestOf4
  simp only [List.foldl]
  rcases lt_or_le r2 r1 with h1 | h1 <;>
    [rw [if_pos h1]; rw [if_neg (not_lt.2 h1)]] <;> dsimp only
  · rcases lt_or_le r3 r1 with h2 | h2 <;>
      [rw [if_pos h2]; rw [if_neg (not_lt.2 h2)]] <;> dsimp only
    · rcases lt_or_le r4 r1 with h3 | h3 <;>
        [rw [if_pos h3]; rw [if_neg (not_lt.2 h3)]] <;> dsimp only
      · exact Or.inl ⟨rfl, h1, h2, h3⟩
      · exact Or.inr (Or.inr (Or.inr ⟨rfl, by linarith, by linarith, by linarith⟩))
    · rcases lt_or_le r4 r3 with h3 | h3 <;>
        [rw [if_pos h3]; rw [if_neg (not_lt.2 h3)]] <;> dsimp only
      · exact Or.inr (Or.inr (Or.inl ⟨rfl, by linarith, by linarith, h3⟩))
      · exact Or.inr (Or.inr (Or.inr ⟨rfl, by linarith, by linarith, h3⟩))
  · rcases lt_or_le r3 r2 with h2 | h2 <;>
      [rw [if_pos h2]; rw [if_neg (not_lt.2 h2)]] <;> dsimp only
    · rcases lt_or_le r4 r2 with h3 | h3 <;>
        [rw [if_pos h3]; rw [if_neg (not_lt.2 h3)]] <;> dsimp only
      · exact Or.inr (Or.inl ⟨rfl, h1, h2, h3⟩)
      · exact Or.inr (Or.inr (Or.inr ⟨rfl, by linarith, by linarith, by linarith⟩))
    · rcases lt_or_le r4 r3 with h3 | h3 <;>
        [rw [if_pos h3]; rw [if_neg (not_lt.2 h3)]] <;> dsimp only
      · exact Or.inr (Or.inr (Or.inl ⟨rfl, h1.trans h2, h2, h3⟩))
      · exact Or.inr (Or.inr (Or.inr ⟨rfl, by linarith, by linarith, h3⟩))

lemma backtestCore_shape (tanh sq : ℚ → ℚ) (randLR randAR : ℕ → ℚ)
    (data : List HistoricalDataPoint) :
    ∃ m1 m2 m3 m4 : ModelMetrics, backtestCore tanh sq randLR randAR data =
      ⟨m1, m2, m3, m4, bestOf4 m1.r2 m2.r2 m3.r2 m4.r2⟩ :=
  ⟨_, _, _, _, rfl⟩

lemma replicate_drop {α : Type} (a : α) :
    ∀ (k n : ℕ), (List.replicate n a).drop k = List.replicate (n - k) a := by
  intro k
  induction k with
  | zero => intro n; simp
  | succ k ih =>
    intro n
    cases n with
    | zero => simp
    | succ n => simp [List.replicate_succ, List.drop_succ_cons, ih n]

lemma bestOf4_self (r : ℚ) : bestOf4 r r r r = "lstm" := by
  rw [bestOf4]
  simp only [List.foldl]
  dsimp only
  rw [if_neg (lt_irrefl r), if_neg (lt_irrefl r), if_neg (lt_irrefl r)]

lemma calculateR2_const4 (p : List ℚ) (hp : p.length = 4) :
    calculateR2 (List.replicate 4 (100 : ℚ)) p = 0 := by
  rw [calculateR2, if_neg (by simp [hp])]
  dsimp only
  norm_num [mean, List.replicate, List.foldl]

lemma gp_length (tanh sq : ℚ → ℚ) (rands : ℕ → ℚ)
    (data : List HistoricalDataPoint) (N : ℕ) (modelName : String)
    (h : ¬ data.length < 15) :
    (generatePredictions tanh sq rands data N modelName).length = N := by
  rw [generatePredictions, if_neg h]
  simp

lemma generatePredictions_confidence_getD (tanh sq : ℚ → ℚ) (rands : ℕ → ℚ)
    (data : List HistoricalDataPoint) (N : ℕ) (modelName : String)
    (h15 : 15 ≤ data.length) (i : ℕ) (hi : i < N) :
    ((generatePredictions tanh sq rands data N modelName).getD i default).confidence =
      max (11 / 20) (baseConfidence modelName - 1 / 20 * ((i : ℚ) + 1)) := by
  rw [generatePredictions, if_neg (by omega)]
  rw [List.getD_eq_getElem?_getD, List.getElem?_map, List.getElem?_range' 1 1 hi]
  dsimp only [Option.map_some', Option.getD_some]
  congr 1
  push_cast
  ring

/-! Claim theorems, witnesses and counterexamples. -/

/-- C1: for every history, horizon and model name, `generatePredictions` returns exactly `daysToPredict` predictions when the history has at least 15 points, and the empty list when it has fewer. -/
theorem generatePredictions_horizon (tanh sq : ℚ → ℚ) (rands : ℕ → ℚ)
    (data : List HistoricalDataPoint) (N : ℕ) (modelName : String) :
    (15 ≤ data.length → (generatePredictions tanh sq rands data N modelName).length = N) ∧
    (data.length < 15 → generatePredictions tanh sq rands data N modelName = []) := by
  constructor <;> intro h
  · rw [generatePredictions, if_neg (by omega)]
    simp
  · rw [generatePredictions, if_pos h]

/-- Witness for C1 at a concrete 15-point history (horizon 3) and a concrete 3-point history (horizon 5). -/
theorem generatePredictions_horizon_witness :
    (generatePredictions (fun _ => 0) ratSqrt (fun _ => 0) dataRise15 3 "lstm").length = 3 ∧
    generatePredictions (fun _ => 0) ratSqrt (fun _ => 0) dataShort3 5 "arima" = [] :=
  ⟨(generatePredictions_horizon (fun _ => 0) ratSqrt (fun _ => 0) dataRise15 3 "lstm").1
      (by simp [dataRise15_length]),
   (generatePredictions_horizon (fun _ => 0) ratSqrt (fun _ => 0) dataShort3 5 "arima").2
      (by simp [dataShort3_length])⟩

set_option maxHeartbeats 2000000 in
/-- Counterexample to C2 as stated: on a concrete 20-point history (9 closes of 1, then 11 closes of 1000, satisfying the 15-point minimum) with `daysAhead = 30`, the ensemble-tree strategy returns a value strictly below 0.7 × last close — no floor clamp is applied to `predictRandomForest`.  The square-root oracle is `ratSqrt`; on this input the only square root that influences the result is that of the 10-day variance, which is exactly 0 (the last ten closes are constant), where `ratSqrt` is exact. -/
theorem randomForest_noclamp_counterexample :
    15 ≤ dataCliff20.length ∧
    predictRandomForest ratSqrt dataCliff20 30 < 7 / 10 * lastCloseOrZero dataCliff20 := by
  constructor
  · simp [dataCliff20_length]
  · norm_num [predictRandomForest, dataCliff20, lastCloseOrZero, mean, lastN, maxList, minList,
      stdDevO, variance, ratSqrt, List.foldl, List.replicate, List.getD, List.getLast?]

/-- C2 (amended): the floor clamp holds for the trend and differenced-AR strategies only — for every input meeting the strategy minimum, every noise draw and every square-root oracle, `predictLinearRegression` is at least 0.7 × last close and `predictARIMA` at least 0.75 × last close; the ensemble-tree and sequence-memory strategies apply no clamp (see the counterexample). -/
theorem trend_ar_floor_clamp (sq : ℚ → ℚ) (rand : ℚ)
    (data : List HistoricalDataPoint) (d : ℕ) :
    (5 ≤ data.length → 7 / 10 * lastCloseOrZero data ≤ predictLinearRegression sq rand data d) ∧
    (10 ≤ data.length → 3 / 4 * lastCloseOrZero data ≤ predictARIMA sq rand data d) := by
  constructor <;> intro h
  · rw [predictLinearRegression, if_neg (by omega)]
    refine le_trans (le_of_eq ?_) (le_max_right _ _)
    rw [map_close_getD_last]; ring
  · rw [predictARIMA, if_neg (by omega)]
    refine le_trans (le_of_eq ?_) (le_max_right _ _)
    rw [map_close_getD_last]; ring

/-- Witness for C2 (amended) at the concrete 15-point history. -/
theorem trend_ar_floor_clamp_witness :
    7 / 10 * lastCloseOrZero dataRise15 ≤ predictLinearRegression ratSqrt (1 / 3) dataRise15 2 ∧
    3 / 4 * lastCloseOrZero dataRise15 ≤ predictARIMA ratSqrt (1 / 3) dataRise15 2 :=
  ⟨(trend_ar_floor_clamp ratSqrt (1 / 3) dataRise15 2).1 (by simp [dataRise15_length]),
   (trend_ar_floor_clamp ratSqrt (1 / 3) dataRise15 2).2 (by simp [dataRise15_length])⟩

/-- Counterexample to C3 as stated: on the non-empty list `[1]`, the metrics evaluator applied to identical arrays yields R² = 0, not 1, because SS_tot = 0 falls into the zero fallback branch. -/
theorem calculateR2_identical_counterexample : calculateR2 [(1 : ℚ)] [1] ≠ 1 := by
  norm_num [calculateR2, mean, List.foldl, List.zip, List.zipWith]

/-- C3 (amended): on identical arrays MSE and MAE are 0 for every list, and R² = 1 provided the array is not constant (some two elements differ); a constant array yields R² = 0 instead. -/
theorem metrics_identical (xs : List ℚ) :
    calculateMSE xs xs = 0 ∧ calculateMAE xs xs = 0 ∧
    ((∃ a ∈ xs, ∃ b ∈ xs, a ≠ b) → calculateR2 xs xs = 1) := by
  refine ⟨?_, ?_, fun hne => ?_⟩
  · by_cases h : xs.length = 0
    · rw [calculateMSE, if_pos (Or.inr h)]
    · rw [calculateMSE, if_neg (by simp [h])]
      dsimp only
      rw [foldl_zip_self _ (by intro a; simp), zero_div]
  · by_cases h : xs.length = 0
    · rw [calculateMAE, if_pos (Or.inr h)]
    · rw [calculateMAE, if_neg (by simp [h])]
      dsimp only
      rw [foldl_zip_self _ (by intro a; simp), zero_div]
  · have hne' : xs.length ≠ 0 := by
      obtain ⟨a, ha, -⟩ := hne
      exact fun h0 => absurd ha (by simp [List.length_eq_zero.1 h0])
    rw [calculateR2, if_neg (by simp [hne'])]
    dsimp only
    rw [foldl_zip_self _ (by intro a; simp), if_pos (ssTot_pos xs hne), zero_div, sub_zero]

/-- Witness for C3 (amended) at the concrete list `[0, 1]`. -/
theorem metrics_identical_witness :
    calculateMSE [0, 1] [0, 1] = 0 ∧ calculateMAE [0, 1] [0, 1] = 0 ∧
    calculateR2 [0, 1] [0, 1] = 1 :=
  ⟨(metrics_identical [0, 1]).1, (metrics_identical [0, 1]).2.1,
   (metrics_identical [0, 1]).2.2 ⟨0, by simp, 1, by simp, zero_ne_one⟩⟩

/-- C4: each strategy given a history strictly shorter than its minimum (trend 5, differenced-AR 10, ensemble-tree 15, sequence-memory 15) returns exactly the close of the last data point, and 0 for the empty history (`lastCloseOrZero` is the close of the last point and 0 on empty, as the final two conjuncts state). -/
theorem predictors_short_input (tanh sq : ℚ → ℚ) (rand : ℚ)
    (data : List HistoricalDataPoint) (d : ℕ) :
    (data.length < 5 → predictLinearRegression sq rand data d = lastCloseOrZero data) ∧
    (data.length < 10 → predictARIMA sq rand data d = lastCloseOrZero data) ∧
    (data.length < 15 → predictRandomForest sq data d = lastCloseOrZero data) ∧
    (data.length < 15 → predictLSTM tanh sq data d = some (lastCloseOrZero data)) ∧
    (∀ (pre : List HistoricalDataPoint) (q : HistoricalDataPoint),
      lastCloseOrZero (pre ++ [q]) = q.close) ∧
    lastCloseOrZero [] = 0 := by
  refine ⟨fun h => ?_, fun h => ?_, fun h => ?_, fun h => ?_, fun pre q => ?_, rfl⟩
  · rw [predictLinearRegression, if_pos h]
  · rw [predictARIMA, if_pos h]
  · rw [predictRandomForest, if_pos h]
  · rw [predictLSTM, if_pos h]
  · simp [lastCloseOrZero, List.getLast?_concat]

/-- Witness for C4 at the concrete 3-point history. -/
theorem predictors_short_input_witness :
    predictLinearRegression ratSqrt 0 dataShort3 2 = lastCloseOrZero dataShort3 ∧
    predictARIMA ratSqrt 0 dataShort3 2 = lastCloseOrZero dataShort3 ∧
    predictRandomForest ratSqrt dataShort3 2 = lastCloseOrZero dataShort3 ∧
    predictLSTM (fun _ => 0) ratSqrt dataShort3 2 = some (lastCloseOrZero dataShort3) :=
  ⟨(predictors_short_input (fun _ => 0) ratSqrt 0 dataShort3 2).1 (by simp [dataShort3_length]),
   (predictors_short_input (fun _ => 0) ratSqrt 0 dataShort3 2).2.1 (by simp [dataShort3_length]),
   (predictors_short_input (fun _ => 0) ratSqrt 0 dataShort3 2).2.2.1 (by simp [dataShort3_length]),
   (predictors_short_input (fun _ => 0) ratSqrt 0 dataShort3 2).2.2.2.1 (by simp [dataShort3_length])⟩

/-- Counterexample to C5 as stated: on a 20-point constant history every strategy has validation R² = 0 (a four-way tie), and the elected best model is \"lstm\" — the tie is broken in favour of the later strategy in declaration order, not the earlier one (which would have given \"linearRegression\"). -/
theorem backtest_tie_counterexample :
    (calculateAllModelMetrics (fun _ => 0) ratSqrt (fun _ => 0) (fun _ => 0) dataFlat20).bestModel = "lstm" ∧
    (calculateAllModelMetrics (fun _ => 0) ratSqrt (fun _ => 0) (fun _ => 0) dataFlat20).linearRegression.r2 =
      (calculateAllModelMetrics (fun _ => 0) ratSqrt (fun _ => 0) (fun _ => 0) dataFlat20).lstm.r2 := by
  have h20 : ¬ dataFlat20.length < 20 := by simp [dataFlat20]
  rw [calculateAllModelMetrics, if_neg h20, backtestCore]
  dsimp only
  simp only [dataFlat20, List.length_replicate, replicate_drop, List.map_replicate]
  norm_num
  rw [calculateR2_const4 _ (by simp), calculateR2_const4 _ (by simp),
    calculateR2_const4 _ (by simp), calculateR2_const4 _ (by simp)]
  exact ⟨bestOf4_self 0, rfl⟩

/-- C5 (amended): `bestModel` is always one of the four strategy names; below 20 points the result is all-zero metrics with the \"lstm\" fallback; at 20 or more points `bestModel` is the strategy of maximal R², with ties broken in favour of the LATER strategy in the order linearRegression, arima, randomForest, lstm (`reduce` keeps the accumulator only on strictly greater R²). -/
theorem backtest_bestModel (tanh sq : ℚ → ℚ) (randLR randAR : ℕ → ℚ)
    (data : List HistoricalDataPoint) :
    ((calculateAllModelMetrics tanh sq randLR randAR data).bestModel = "linearRegression" ∨
     (calculateAllModelMetrics tanh sq randLR randAR data).bestModel = "arima" ∨
     (calculateAllModelMetrics tanh sq randLR randAR data).bestModel = "randomForest" ∨
     (calculateAllModelMetrics tanh sq randLR randAR data).bestModel = "lstm") ∧
    (data.length < 20 → calculateAllModelMetrics tanh sq randLR randAR data =
      ⟨zeroMetrics, zeroMetrics, zeroMetrics, zeroMetrics, "lstm"⟩) ∧
    (20 ≤ data.length →
      (((calculateAllModelMetrics tanh sq randLR randAR data).bestModel = "linearRegression" ∧
        (calculateAllModelMetrics tanh sq randLR randAR data).arima.r2 <
          (calculateAllModelMetrics tanh sq randLR randAR data).linearRegression.r2 ∧
        (calculateAllModelMetrics tanh sq randLR randAR data).randomForest.r2 <
          (calculateAllModelMetrics tanh sq randLR randAR data).linearRegression.r2 ∧
        (calculateAllModelMetrics tanh sq randLR randAR data).lstm.r2 <
          (calculateAllModelMetrics tanh sq randLR randAR data).linearRegression.r2) ∨
       ((calculateAllModelMetrics tanh sq randLR randAR data).bestModel = "arima" ∧
        (calculateAllModelMetrics tanh sq randLR randAR data).linearRegression.r2 ≤
          (calculateAllModelMetrics tanh sq randLR randAR data).arima.r2 ∧
        (calculateAllModelMetrics tanh sq randLR randAR data).randomForest.r2 <
          (calculateAllModelMetrics tanh sq randLR randAR data).arima.r2 ∧
        (calculateAllModelMetrics tanh sq randLR randAR data).lstm.r2 <
          (calculateAllModelMetrics tanh sq randLR randAR data).arima.r2) ∨
       ((calculateAllModelMetrics tanh sq randLR randAR data).bestModel = "randomForest" ∧
        (calculateAllModelMetrics tanh sq randLR randAR data).linearRegression.r2 ≤
          (calculateAllModelMetrics tanh sq randLR randAR data).randomForest.r2 ∧
        (calculateAllModelMetrics tanh sq randLR randAR data).arima.r2 ≤
          (calculateAllModelMetrics tanh sq randLR randAR data).randomForest.r2 ∧
        (calculateAllModelMetrics tanh sq randLR randAR data).lstm.r2 <
          (calculateAllModelMetrics tanh sq randLR randAR data).randomForest.r2) ∨
       ((calculateAllModelMetrics tanh sq randLR randAR data).bestModel = "lstm" ∧
        (calculateAllModelMetrics tanh sq randLR randAR data).linearRegression.r2 ≤
          (calculateAllModelMetrics tanh sq randLR randAR data).lstm.r2 ∧
        (calculateAllModelMetrics tanh sq randLR randAR data).arima.r2 ≤
          (calculateAllModelMetrics tanh sq randLR randAR data).lstm.r2 ∧
        (calculateAllModelMetrics tanh sq randLR randAR data).randomForest.r2 ≤
          (calculateAllModelMetrics tanh sq randLR randAR data).lstm.r2))) := by
  by_cases h : data.length < 20
  · have hM : calculateAllModelMetrics tanh sq randLR randAR data =
        ⟨zeroMetrics, zeroMetrics, zeroMetrics, zeroMetrics, "lstm"⟩ := by
      rw [calculateAllModelMetrics, if_pos h]
    exact ⟨by rw [hM]; exact Or.inr (Or.inr (Or.inr rfl)),
           fun _ => hM, fun h20 => absurd h20 (by omega)⟩
  · obtain ⟨m1, m2, m3, m4, hC⟩ := backtestCore_shape tanh sq randLR randAR data
    have hM : calculateAllModelMetrics tanh sq randLR randAR data =
        ⟨m1, m2, m3, m4, bestOf4 m1.r2 m2.r2 m3.r2 m4.r2⟩ := by
      rw [calculateAllModelMetrics, if_neg h, hC]
    rw [hM]
    refine ⟨?_, fun hl => absurd hl h, fun _ => bestOf4_spec m1.r2 m2.r2 m3.r2 m4.r2⟩
    rcases bestOf4_spec m1.r2 m2.r2 m3.r2 m4.r2 with hh | hh | hh | hh
    · exact Or.inl hh.1
    · exact Or.inr (Or.inl hh.1)
    · exact Or.inr (Or.inr (Or.inl hh.1))
    · exact Or.inr (Or.inr (Or.inr hh.1))

/-- Witness for C5 (amended): the short-history branch at the 3-point history and the enumeration at the 20-point constant history. -/
theorem backtest_bestModel_witness :
    calculateAllModelMetrics (fun _ => 0) ratSqrt (fun _ => 0) (fun _ => 0) dataShort3 =
      ⟨zeroMetrics, zeroMetrics, zeroMetrics, zeroMetrics, "lstm"⟩ ∧
    ((calculateAllModelMetrics (fun _ => 0) ratSqrt (fun _ => 0) (fun _ => 0) dataFlat20).bestModel =
        "linearRegression" ∨
     (calculateAllModelMetrics (fun _ => 0) ratSqrt (fun _ => 0) (fun _ => 0) dataFlat20).bestModel =
        "arima" ∨
     (calculateAllModelMetrics (fun _ => 0) ratSqrt (fun _ => 0) (fun _ => 0) dataFlat20).bestModel =
        "randomForest" ∨
     (calculateAllModelMetrics (fun _ => 0) ratSqrt (fun _ => 0) (fun _ => 0) dataFlat20).bestModel =
        "lstm") :=
  ⟨(backtest_bestModel (fun _ => 0) ratSqrt (fun _ => 0) (fun _ => 0) dataShort3).2.1
      (by simp [dataShort3_length]),
   (backtest_bestModel (fun _ => 0) ratSqrt (fun _ => 0) (fun _ => 0) dataFlat20).1⟩

/-- Counterexample to C6 as stated: with `actual = [2, 1]` and `predicted = [1]` (mismatched lengths) the directional-accuracy metric is 100, not 0 — `calculateAccuracy` has no length-mismatch guard, and the out-of-range read compares as false, matching the downward actual move. -/
theorem calculateAccuracy_mismatch_counterexample :
    calculateAccuracy [2, 1] [1] = 100 ∧ calculateAccuracy [2, 1] [1] ≠ 0 := by
  norm_num [calculateAccuracy, jsGtO, List.range', List.filter]

/-- C6 (amended): on length mismatch or empty input, MSE, R² and MAE are 0; directional accuracy is 0 on empty input but is not guarded against length mismatch (see the counterexample). -/
theorem metrics_mismatch (a p : List ℚ) :
    (a.length ≠ p.length ∨ a.length = 0 →
      calculateMSE a p = 0 ∧ calculateR2 a p = 0 ∧ calculateMAE a p = 0) ∧
    (a.length = 0 → calculateAccuracy a p = 0) := by
  refine ⟨fun h => ⟨?_, ?_, ?_⟩, fun h => ?_⟩
  · rw [calculateMSE, if_pos h]
  · rw [calculateR2, if_pos h]
  · rw [calculateMAE, if_pos h]
  · rw [calculateAccuracy, if_pos h]

/-- Witness for C6 (amended) at concrete mismatched and empty inputs. -/
theorem metrics_mismatch_witness :
    (calculateMSE [1, 2] [3] = 0 ∧ calculateR2 [1, 2] [3] = 0 ∧ calculateMAE [1, 2] [3] = 0) ∧
    calculateAccuracy ([] : List ℚ) [3] = 0 :=
  ⟨(metrics_mismatch [1, 2] [3]).1 (by simp),
   (metrics_mismatch [] [3]).2 (by simp)⟩

/-- C7: the i-th prediction (0-based index i, day-offset i+1) has confidence max(0.55, baseConfidence − 0.05·(i+1)); confidence is non-increasing in the day-offset and never below 0.55; and the base confidence is 0.92 (= 23/25) for \"lstm\", 0.88 (= 22/25) for \"randomForest\", 0.85 (= 17/20) for \"arima\" and 0.82 (= 41/50) otherwise. -/
theorem generatePredictions_confidence (tanh sq : ℚ → ℚ) (rands : ℕ → ℚ)
    (data : List HistoricalDataPoint) (N : ℕ) (modelName : String)
    (h15 : 15 ≤ data.length) :
    (∀ i, i < N →
      ((generatePredictions tanh sq rands data N modelName).getD i default).confidence =
        max (11 / 20) (baseConfidence modelName - 1 / 20 * ((i : ℚ) + 1))) ∧
    (∀ i j, i ≤ j → j < N →
      ((generatePredictions tanh sq rands data N modelName).getD j default).confidence ≤
        ((generatePredictions tanh sq rands data N modelName).getD i default).confidence) ∧
    (∀ i, i < N →
      11 / 20 ≤ ((generatePredictions tanh sq rands data N modelName).getD i default).confidence) ∧
    baseConfidence "lstm" = 23 / 25 ∧ baseConfidence "randomForest" = 22 / 25 ∧
    baseConfidence "arima" = 17 / 20 ∧
    (modelName ≠ "lstm" → modelName ≠ "randomForest" → modelName ≠ "arima" →
      baseConfidence modelName = 41 / 50) := by
  refine ⟨fun i hi => generatePredictions_confidence_getD tanh sq rands data N modelName h15 i hi,
    fun i j hij hj => ?_, fun i hi => ?_, rfl, ?_, ?_, fun h1 h2 h3 => ?_⟩
  · rw [generatePredictions_confidence_getD tanh sq rands data N modelName h15 j hj,
      generatePredictions_confidence_getD tanh sq rands data N modelName h15 i (lt_of_le_of_lt hij hj)]
    have hc : ((i : ℚ)) ≤ (j : ℚ) := by exact_mod_cast hij
    exact max_le_max le_rfl (by linarith)
  · rw [generatePredictions_confidence_getD tanh sq rands data N modelName h15 i hi]
    exact le_max_left _ _
  · simp [baseConfidence]
  · simp [baseConfidence]
  · rw [baseConfidence, if_neg h1, if_neg h2, if_neg h3]

/-- Witness for C7 at the concrete 15-point history with the differenced-AR model. -/
theorem generatePredictions_confidence_witness :
    ((generatePredictions (fun _ => 0) ratSqrt (fun _ => 0) dataRise15 2 "arima").getD 0
        default).confidence =
      max (11 / 20) (baseConfidence "arima" - 1 / 20 * ((0 : ℚ) + 1)) ∧
    11 / 20 ≤ ((generatePredictions (fun _ => 0) ratSqrt (fun _ => 0) dataRise15 2
        "arima").getD 1 default).confidence :=
  ⟨(generatePredictions_confidence (fun _ => 0) ratSqrt (fun _ => 0) dataRise15 2 "arima"
      (by simp [dataRise15_length])).1 0 (by omega),
   (generatePredictions_confidence (fun _ => 0) ratSqrt (fun _ => 0) dataRise15 2 "arima"
      (by simp [dataRise15_length])).2.2.1 1 (by omega)⟩

/-- C8: no prediction date falls on a Saturday or Sunday, for every history of at least 15 points, every horizon and every model. -/
theorem generatePredictions_weekday (tanh sq : ℚ → ℚ) (rands : ℕ → ℚ)
    (data : List HistoricalDataPoint) (N : ℕ) (modelName : String)
    (h15 : 15 ≤ data.length) :
    ∀ p ∈ generatePredictions tanh sq rands data N modelName, isWeekend p.date = false := by
  intro p hp
  rw [generatePredictions, if_neg (by omega)] at hp
  obtain ⟨i, hi, rfl⟩ := List.mem_map.1 hp
  exact adjustWeekend_not_weekend _

/-- Witness for C8 at the concrete 15-point history. -/
theorem generatePredictions_weekday_witness :
    isWeekend ((generatePredictions (fun _ => 0) ratSqrt (fun _ => 0) dataRise15 3
      "linearRegression").getD 0 default).date = false := by
  have h3 : (generatePredictions (fun _ => 0) ratSqrt (fun _ => 0) dataRise15 3
      "linearRegression").length = 3 :=
    gp_length (fun _ => 0) ratSqrt (fun _ => 0) dataRise15 3 "linearRegression"
      (by simp [dataRise15_length])
  have hmem : (generatePredictions (fun _ => 0) ratSqrt (fun _ => 0) dataRise15 3
      "linearRegression").getD 0 default ∈
      generatePredictions (fun _ => 0) ratSqrt (fun _ => 0) dataRise15 3 "linearRegression" := by
    rw [List.getD_eq_getElem?_getD, List.getElem?_eq_getElem (by rw [h3]; omega)]
    exact List.getElem_mem _
  exact generatePredictions_weekday (fun _ => 0) ratSqrt (fun _ => 0) dataRise15 3
    "linearRegression" (by simp [dataRise15_length]) _ hmem

/-- C9: the merged chart sequence has length historical + predictions; records from historical points carry `actual` non-null and `predicted` null, records from predictions the opposite, and every merged record has exactly one of `actual`/`predicted` non-null. -/
theorem combine_spec (hist : List HistoricalDataPoint) (preds : List PredictionResult) :
    (combineDataWithPredictions hist preds).length = hist.length + preds.length ∧
    (∀ i, i < hist.length →
      ((combineDataWithPredictions hist preds).getD i default).actual =
        some ((hist.getD i default).close) ∧
      ((combineDataWithPredictions hist preds).getD i default).predicted = none) ∧
    (∀ j, j < preds.length →
      ((combineDataWithPredictions hist preds).getD (hist.length + j) default).actual = none ∧
      ((combineDataWithPredictions hist preds).getD (hist.length + j) default).predicted =
        some ((preds.getD j default).predictedClose)) ∧
    (∀ r ∈ combineDataWithPredictions hist preds,
      (r.actual.isSome = true ∧ r.predicted = none) ∨
      (r.actual = none ∧ r.predicted.isSome = true)) := by
  refine ⟨by simp [combineDataWithPredictions], fun i hi => ?_, fun j hj => ?_, fun r hr => ?_⟩
  · rw [combineDataWithPredictions, List.getD_eq_getElem?_getD,
      List.getElem?_append_left (by simp [hi]), List.getElem?_map,
      List.getElem?_eq_getElem hi]
    simp [List.getD_eq_getElem?_getD, List.getElem?_eq_getElem hi]
  · rw [combineDataWithPredictions, List.getD_eq_getElem?_getD,
      List.getElem?_append_right (by simp), List.getElem?_map]
    simp [List.getD_eq_getElem?_getD, List.getElem?_eq_getElem, hj]
  · rcases List.mem_append.1 hr with h | h <;> obtain ⟨x, hx, rfl⟩ := List.mem_map.1 h
    · left; exact ⟨rfl, rfl⟩
    · right; exact ⟨rfl, rfl⟩

/-- Witness for C9 at a concrete 3-point history and one prediction. -/
theorem combine_spec_witness :
    (combineDataWithPredictions dataShort3 [⟨20, some 5, 4 / 5, true, "lstm"⟩]).length =
      dataShort3.length + 1 ∧
    ((combineDataWithPredictions dataShort3 [⟨20, some 5, 4 / 5, true, "lstm"⟩]).getD 0
        default).actual = some ((dataShort3.getD 0 default).close) ∧
    ((combineDataWithPredictions dataShort3 [⟨20, some 5, 4 / 5, true, "lstm"⟩]).getD
        (dataShort3.length + 0) default).predicted =
      some (([(⟨20, some 5, 4 / 5, true, "lstm"⟩ : PredictionResult)].getD 0
        default).predictedClose) :=
  ⟨(combine_spec dataShort3 [⟨20, some 5, 4 / 5, true, "lstm"⟩]).1,
   ((combine_spec dataShort3 [⟨20, some 5, 4 / 5, true, "lstm"⟩]).2.1 0 (by simp [dataShort3_length])).1,
   ((combine_spec dataShort3 [⟨20, some 5, 4 / 5, true, "lstm"⟩]).2.2.1 0 (by simp)).2⟩

/-- C10: for a history of exactly 15 points the pattern-matching scan of `predictLSTM` iterates over the empty index list, `bestSimilarity` keeps its `-Infinity` sentinel (modelled `none`), and the strategy result — and hence every `predictedClose` the entry point emits for the \"lstm\" model — is non-finite (`none`, standing for NaN or ±Infinity) rather than a finite price. -/
theorem predictLSTM_fifteen_sentinel (tanh sq : ℚ → ℚ) (rands : ℕ → ℚ)
    (data : List HistoricalDataPoint) (d N : ℕ) (h : data.length = 15) :
    List.range' 5 (data.length - 15) = [] ∧
    predictLSTM tanh sq data d = none ∧
    (∀ p ∈ generatePredictions tanh sq rands data N "lstm",
      p.predictedClose = none) := by
  refine ⟨by simp [h], predictLSTM_none_of_length15 tanh sq data d h, fun p hp => ?_⟩
  rw [generatePredictions, if_neg (by omega)] at hp
  obtain ⟨i, hi, rfl⟩ := List.mem_map.1 hp
  dsimp only
  rw [if_neg (by decide), if_neg (by decide), if_neg (by decide)]
  rw [predictLSTM_none_of_length15 tanh sq data i h]
  rfl

/-- Witness for C10 at the concrete 15-point history. -/
theorem predictLSTM_fifteen_sentinel_witness :
    predictLSTM (fun _ => 0) ratSqrt dataRise15 4 = none ∧
    ((generatePredictions (fun _ => 0) ratSqrt (fun _ => 0) dataRise15 2 "lstm").getD 0
      default).predictedClose = none := by
  have h15 : dataRise15.length = 15 := dataRise15_length
  have h2 : (generatePredictions (fun _ => 0) ratSqrt (fun _ => 0) dataRise15 2 "lstm").length = 2 :=
    gp_length (fun _ => 0) ratSqrt (fun _ => 0) dataRise15 2 "lstm" (by omega)
  have hmem : (generatePredictions (fun _ => 0) ratSqrt (fun _ => 0) dataRise15 2 "lstm").getD 0
      default ∈ generatePredictions (fun _ => 0) ratSqrt (fun _ => 0) dataRise15 2 "lstm" := by
    rw [List.getD_eq_getElem?_getD, List.getElem?_eq_getElem (by rw [h2]; omega)]
    exact List.getElem_mem _
  exact ⟨(predictLSTM_fifteen_sentinel (fun _ => 0) ratSqrt (fun _ => 0) dataRise15 4 2 h15).2.1,
    (predictLSTM_fifteen_sentinel (fun _ => 0) ratSqrt (fun _ => 0) dataRise15 4 2 h15).2.2 _ hmem⟩

